import Mathlib

/-!
Verification of the `RobotAPI` adapter
(`rmf_demos_fleet_adapter/RobotClientAPI.py`).

The development shallowly embeds the adapter's core logic:

* the beacon proximity engine (`update_beacon` and its per-beacon loop
  body `updateBeaconOne`), with an explicit event trace recording MQTT
  publishes and occupant-field writes in source order;
* the status-polling helpers (`navigation_completed`,
  `navigation_remaining_duration`, `process_completed`, `position`),
  with Python dict bracket access `d['k']` modelled as a `KeyError` in an
  `Except` monad and `d.get('k')` modelled as an `Option`;
* the command-issue path (`navigate`), with its `try/except` block
  modelled as catching every error of the body.

Positions and the radius are rationals.  The Python code compares
`math.sqrt(dx**2 + dy**2)` against the radius `ρ`; since `Real.sqrt` is
strictly monotone on nonnegatives, for `0 ≤ ρ` this is equivalent to
comparing the squared distance against `ρ * ρ`, which is how the
embedding states the comparisons (lemmas `dist_lt_radius_iff` and
`radius_lt_dist_iff` below justify the translation).
-/

namespace RobotAPI

/-- Squared Euclidean distance between two planar points, the radicand of
`_dist` in `update_beacon` (`(A[0]-B[0])**2 + (A[1]-B[1])**2`). -/
def distSq (A B : ℚ × ℚ) : ℚ :=
  (A.1 - B.1) ^ 2 + (A.2 - B.2) ^ 2

/-- One configured beacon: its id (the dict key of `self.beacons`), its
location, and the robot currently registered as within its vicinity
(`beacon_data[1]`, `None` initially). -/
structure Beacon where
  id : String
  loc : ℚ × ℚ
  occupant : Option String
deriving DecidableEq

/-- Observable actions of `update_beacon`, in source order:
`publish id t` is an MQTT publish of `{'id': id, 'toggle': t}` by
`_beacon_on` (`t = 1`) or `_beacon_off` (`t = 0`); `write id occ` is the
assignment `self.beacons[id][1] = occ`. -/
inductive BeaconEvent where
  | publish (id : String) (toggle : Nat)
  | write (id : String) (occ : Option String)
deriving DecidableEq

/-- Body of the `for beacon_id, beacon_data in self.beacons.items()` loop of
`update_beacon`, for one beacon: if this robot was registered as near the
beacon and is now strictly beyond the radius, publish off then clear the
occupant; independently, if the robot is strictly within the radius,
publish on then register it as the occupant.  Returns the updated beacon
and the trace of publishes and occupant writes in source order. -/
def updateBeaconOne (radius : ℚ) (robot : String) (pos : ℚ × ℚ)
    (b : Beacon) : Beacon × List BeaconEvent :=
  let step1 : Beacon × List BeaconEvent :=
    if b.occupant = some robot ∧ radius * radius < distSq b.loc pos then
      ({ b with occupant := none },
       [BeaconEvent.publish b.id 0, BeaconEvent.write b.id none])
    else (b, [])
  if distSq b.loc pos < radius * radius then
    ({ step1.1 with occupant := some robot },
     step1.2 ++ [BeaconEvent.publish b.id 1, BeaconEvent.write b.id (some robot)])
  else step1

/-- The loop of `update_beacon` over the configured beacons, in the fixed
iteration order of `self.beacons.items()`. -/
def updateBeaconList (radius : ℚ) (robot : String) (pos : ℚ × ℚ) :
    List Beacon → List Beacon × List BeaconEvent
  | [] => ([], [])
  | b :: rest =>
    let r1 := updateBeaconOne radius robot pos b
    let r2 := updateBeaconList radius robot pos rest
    (r1.1 :: r2.1, r1.2 ++ r2.2)

/-- `RobotAPI.update_beacon(robot_name, robot_pos)`: returns immediately
when no MQTT client was configured (`hasMqtt = false`), otherwise runs the
beacon loop. -/
def update_beacon (hasMqtt : Bool) (radius : ℚ) (robot : String)
    (pos : ℚ × ℚ) (bs : List Beacon) : List Beacon × List BeaconEvent :=
  if hasMqtt then updateBeaconList radius robot pos bs else (bs, [])

/-- Formalisation of the ordering property asserted by the spec's
fire-and-forget sentence: every publish in the trace is preceded by an
occupant write for the same beacon. -/
def writesBeforePublishes (evs : List BeaconEvent) : Prop :=
  ∀ (i : Nat) (bid : String) (t : Nat),
    evs[i]? = some (BeaconEvent.publish bid t) →
    ∃ j : Nat, j < i ∧ ∃ occ : Option String,
      evs[j]? = some (BeaconEvent.write bid occ)

/-- The in-flight arrival estimate `data['destination_arrival']` of a status
response: a dict whose fields are read with `.get`, hence `Option`. -/
structure Arrival where
  cmd_id : Option Int
  duration : Option ℚ
deriving DecidableEq

/-- The `data['position']` record of a status response; its coordinates are
read with bracket access in `position`. -/
structure PositionRecord where
  x : Option ℚ
  y : Option ℚ
  yaw : Option ℚ
deriving DecidableEq

/-- The `data` record of a status response.  Every field is optional
because a JSON object may omit any key; whether omission raises or is
tolerated depends on whether the source reads the key with brackets or
with `.get`. -/
structure StatusData where
  position : Option PositionRecord
  last_completed_request : Option Int
  destination_arrival : Option Arrival
  battery : Option ℚ
  replan : Option Bool
deriving DecidableEq

/-- A parsed status response body (`response.json()` in `RobotAPI.data`).
`RobotAPI.data` itself returns `None` on any transport or decode error, so
callers receive an `Option Response`. -/
structure Response where
  success : Option Bool
  data : Option StatusData
deriving DecidableEq

/-- `RobotAPI.navigation_completed(robot_name, cmd_id)`: fetches the status
(`response` parameter), returns `False` when no response or no `data` key
(`response.get('data')`); otherwise evaluates
`data['last_completed_request'] == cmd_id`, where the bracket access raises
`KeyError` when the key is absent. -/
def navigation_completed (response : Option Response) (cmd_id : Int) :
    Except String Bool :=
  match response with
  | none => .ok false
  | some r =>
    match r.data with
    | none => .ok false
    | some d =>
      match d.last_completed_request with
      | none => .error "KeyError: last_completed_request"
      | some l => .ok (l = cmd_id)

/-- `RobotAPI.process_completed(robot_name, cmd_id)`: delegates verbatim to
`navigation_completed`. -/
def process_completed (response : Option Response) (cmd_id : Int) :
    Except String Bool :=
  navigation_completed response cmd_id

/-- `RobotAPI.navigation_remaining_duration(robot_name, cmd_id)`: `None`
when no response; otherwise reads `response['data']` with brackets (raises
on a missing `data` key), then `data.get('destination_arrival')`; `None`
when the arrival is absent or its `cmd_id` differs from the query,
otherwise `arrival.get('duration')`. -/
def navigation_remaining_duration (response : Option Response)
    (cmd_id : Int) : Except String (Option ℚ) :=
  match response with
  | none => .ok none
  | some r =>
    match r.data with
    | none => .error "KeyError: data"
    | some d =>
      match d.destination_arrival with
      | none => .ok none
      | some arrival =>
        if arrival.cmd_id ≠ some cmd_id then .ok none
        else .ok arrival.duration

/-- `RobotAPI.position(robot_name)`: `None` when no response; prints and
returns `None` when `response['success']` is falsy; otherwise reads
`response['data']['position']` and its `x`, `y`, `yaw` coordinates with
bracket access (each raising `KeyError` when absent), calls
`update_beacon(robot_name, [x, y])`, and returns `[x, y, yaw]` together
with the updated beacon table and the beacon event trace. -/
def position (hasMqtt : Bool) (radius : ℚ) (robot : String)
    (bs : List Beacon) (response : Option Response) :
    Except String (Option (ℚ × ℚ × ℚ) × List Beacon × List BeaconEvent) :=
  match response with
  | none => .ok (none, bs, [])
  | some r =>
    match r.success with
    | none => .error "KeyError: success"
    | some s =>
      if !s then .ok (none, bs, [])
      else
        match r.data with
        | none => .error "KeyError: data"
        | some d =>
          match d.position with
          | none => .error "KeyError: position"
          | some p =>
            match p.x with
            | none => .error "KeyError: x"
            | some x =>
              match p.y with
              | none => .error "KeyError: y"
              | some y =>
                match p.yaw with
                | none => .error "KeyError: yaw"
                | some yaw =>
                  let ub := update_beacon hasMqtt radius robot (x, y) bs
                  .ok (some (x, y, yaw), ub.1, ub.2)

/-- Outcome of the HTTP POST performed by `navigate`: either some step of
`requests.post`, `raise_for_status` or `response.json()` raised
(`transportError`), or a JSON body was decoded. -/
inductive NavResponse where
  | transportError (msg : String)
  | body (r : Response)

/-- The `try` block of `RobotAPI.navigate`: propagates any transport or
decode error, and reads `response.json()['success']` with bracket access
(raising `KeyError` when the key is absent). -/
def navigateTry (resp : NavResponse) : Except String Bool :=
  match resp with
  | .transportError msg => .error msg
  | .body r =>
    match r.success with
    | none => .error "KeyError: success"
    | some s => .ok s

/-- `RobotAPI.navigate(robot_name, cmd_id, pose, map_name)`: asserts
`len(pose) > 2` outside the `try` block (an `AssertionError` propagates),
then runs the request; the `except HTTPError` / `except Exception`
handlers swallow every error raised inside the `try` block and the
function falls through to `return False`. -/
def navigate (pose : List ℚ) (resp : NavResponse) : Except String Bool :=
  if pose.length > 2 then
    match navigateTry resp with
    | .ok s => .ok s
    | .error _ => .ok false
  else .error "AssertionError: len(pose) > 2"

/-- Sample beacon at the origin occupied by a robot other than the one
sending position updates. -/
def beaconOccB : Beacon := { id := "b1", loc := (0, 0), occupant := some "robotB" }

/-- Sample beacon at the origin occupied by the updating robot. -/
def beaconOccA : Beacon := { id := "b1", loc := (0, 0), occupant := some "robotA" }

/-- A status data record whose `last_completed_request` key is absent (no
command ever completed). -/
def statusNoCompleted : StatusData :=
  { position := none, last_completed_request := none,
    destination_arrival := none, battery := none, replan := none }

/-- A status data record reporting `l` as the last completed command. -/
def statusCompleted (l : Int) : StatusData :=
  { position := none, last_completed_request := some l,
    destination_arrival := none, battery := none, replan := none }

/-- A successful status response reporting `l` as the last completed
command. -/
def responseCompleted (l : Int) : Response :=
  { success := some true, data := some (statusCompleted l) }

/-- An arrival estimate for command 7 with 5 seconds remaining. -/
def arrivalOther : Arrival := { cmd_id := some 7, duration := some 5 }

/-- A status data record carrying `arrivalOther` as its in-flight arrival
estimate. -/
def statusArrival : StatusData :=
  { position := none, last_completed_request := none,
    destination_arrival := some arrivalOther, battery := none, replan := none }

/-- A successful status response carrying `arrivalOther`. -/
def responseArrival : Response :=
  { success := some true, data := some statusArrival }

/-- A status data record whose `position` key is absent. -/
def statusNoPosition : StatusData :=
  { position := none, last_completed_request := some 1,
    destination_arrival := none, battery := none, replan := none }

/-- The comparison `_dist(A, B) < ρ` performed by the source is equivalent,
for a nonnegative radius, to the squared comparison used in the embedding. -/
theorem dist_lt_radius_iff (A B : ℚ × ℚ) (r : ℚ) (hr : 0 ≤ r) :
    Real.sqrt ((distSq A B : ℚ) : ℝ) < (r : ℝ) ↔ distSq A B < r * r := by
  have hd : (0 : ℝ) ≤ ((distSq A B : ℚ) : ℝ) := by
    have : (0 : ℚ) ≤ distSq A B := by unfold distSq; positivity
    exact_mod_cast this
  rcases lt_or_eq_of_le hr with hrpos | hrzero
  · have hrpos' : (0 : ℝ) < (r : ℝ) := by exact_mod_cast hrpos
    rw [Real.sqrt_lt' hrpos']
    rw [show ((r : ℝ)) ^ 2 = ((r * r : ℚ) : ℝ) by push_cast; ring]
    exact ⟨fun h => by exact_mod_cast h, fun h => by exact_mod_cast h⟩
  · subst hrzero
    simp only [Rat.cast_zero, mul_zero]
    constructor
    · intro h
      exact absurd h (not_lt.mpr (Real.sqrt_nonneg _))
    · intro h
      have : (0 : ℚ) ≤ distSq A B := by
        have := hd
        exact_mod_cast this
      exact absurd h (not_lt.mpr this)

/-- The comparison `_dist(A, B) > ρ` performed by the source is equivalent,
for a nonnegative radius, to the squared comparison used in the embedding. -/
theorem radius_lt_dist_iff (A B : ℚ × ℚ) (r : ℚ) (hr : 0 ≤ r) :
    (r : ℝ) < Real.sqrt ((distSq A B : ℚ) : ℝ) ↔ r * r < distSq A B := by
  have hr' : (0 : ℝ) ≤ (r : ℝ) := by exact_mod_cast hr
  rw [Real.lt_sqrt hr']
  rw [show ((r : ℝ)) ^ 2 = ((r * r : ℚ) : ℝ) by push_cast; ring]
  exact ⟨fun h => by exact_mod_cast h, fun h => by exact_mod_cast h⟩

theorem updateBeaconList_append (radius : ℚ) (robot : String) (pos : ℚ × ℚ)
    (l₁ l₂ : List Beacon) :
    updateBeaconList radius robot pos (l₁ ++ l₂)
      = ((updateBeaconList radius robot pos l₁).1
            ++ (updateBeaconList radius robot pos l₂).1,
         (updateBeaconList radius robot pos l₁).2
            ++ (updateBeaconList radius robot pos l₂).2) := by
  induction l₁ with
  | nil => simp [updateBeaconList]
  | cons b rest ih =>
    simp [updateBeaconList, ih, List.append_assoc]

theorem updateBeaconOne_boundary (radius : ℚ) (robot : String) (pos : ℚ × ℚ)
    (b : Beacon) (hd : distSq b.loc pos = radius * radius) :
    updateBeaconOne radius robot pos b = (b, []) := by
  unfold updateBeaconOne
  rw [hd]
  simp

theorem updateBeaconOne_entry (radius : ℚ) (robot : String) (pos : ℚ × ℚ)
    (b : Beacon) (hd : distSq b.loc pos < radius * radius) :
    updateBeaconOne radius robot pos b
      = ({ b with occupant := some robot },
         [BeaconEvent.publish b.id 1, BeaconEvent.write b.id (some robot)]) := by
  unfold updateBeaconOne
  have h1 : ¬ (b.occupant = some robot ∧ radius * radius < distSq b.loc pos) := by
    rintro ⟨-, hgt⟩
    exact absurd hd (not_lt.mpr (le_of_lt hgt))
  simp [h1, hd]

theorem updateBeaconOne_exit (radius : ℚ) (robot : String) (pos : ℚ × ℚ)
    (b : Beacon) (hocc : b.occupant = some robot)
    (hd : radius * radius < distSq b.loc pos) :
    updateBeaconOne radius robot pos b
      = ({ b with occupant := none },
         [BeaconEvent.publish b.id 0, BeaconEvent.write b.id none]) := by
  unfold updateBeaconOne
  have h2 : ¬ distSq b.loc pos < radius * radius :=
    not_lt.mpr (le_of_lt hd)
  simp [hocc, hd, h2]

theorem navigation_completed_ok_true_iff (p : Option Response) (cmd : Int) :
    navigation_completed p cmd = Except.ok true
      ↔ ∃ r d, p = some r ∧ r.data = some d
          ∧ d.last_completed_request = some cmd := by
  cases p with
  | none => simp [navigation_completed]
  | some r =>
    cases hr : r.data with
    | none => simp [navigation_completed, hr]
    | some d =>
      cases hl : d.last_completed_request with
      | none => simp [navigation_completed, hr, hl]
      | some l => simp [navigation_completed, hr, hl, eq_comm]

/-- C1: an update at distance exactly ρ fires neither the exit branch
(which needs strictly more than ρ) nor the entry branch (strictly less
than ρ): the beacon passes through `update_beacon` unchanged and
contributes no ON or OFF event to the trace. -/
theorem C1_boundary_no_transition (radius : ℚ) (hr : 0 ≤ radius)
    (robot : String) (pos : ℚ × ℚ) (pre post : List Beacon) (b : Beacon)
    (hd : distSq b.loc pos = radius * radius) :
    (update_beacon true radius robot pos (pre ++ b :: post)).1
      = (update_beacon true radius robot pos pre).1
          ++ b :: (update_beacon true radius robot pos post).1
    ∧ (update_beacon true radius robot pos (pre ++ b :: post)).2
      = (update_beacon true radius robot pos pre).2
          ++ (update_beacon true radius robot pos post).2 := by
  have hb := updateBeaconOne_boundary radius robot pos b hd
  constructor <;>
    simp [update_beacon, updateBeaconList_append, updateBeaconList, hb]

/-- C1 witness: beacon at the origin occupied by robotB, radius 2, update
for robotA at (2, 0), distance exactly 2: nothing changes, nothing is
emitted. -/
theorem C1_witness :
    (update_beacon true 2 "robotA" (2, 0) ([] ++ beaconOccB :: [])).1
      = (update_beacon true 2 "robotA" (2, 0) []).1
          ++ beaconOccB :: (update_beacon true 2 "robotA" (2, 0) []).1
    ∧ (update_beacon true 2 "robotA" (2, 0) ([] ++ beaconOccB :: [])).2
      = (update_beacon true 2 "robotA" (2, 0) []).2
          ++ (update_beacon true 2 "robotA" (2, 0) []).2 :=
  C1_boundary_no_transition 2 (by norm_num) "robotA" (2, 0) [] [] beaconOccB
    (by norm_num [distSq, beaconOccB])

/-- C2: an update strictly inside the radius always fires the entry branch
(and never the exit branch, whose strictly-greater test is incompatible):
the occupant becomes the updating robot and exactly one ON publish is
emitted for the beacon, whatever the prior occupant was. -/
theorem C2_entry_sets_occupant (radius : ℚ) (hr : 0 ≤ radius)
    (robot : String) (pos : ℚ × ℚ) (pre post : List Beacon) (b : Beacon)
    (hd : distSq b.loc pos < radius * radius) :
    (update_beacon true radius robot pos (pre ++ b :: post)).1
      = (update_beacon true radius robot pos pre).1
          ++ { b with occupant := some robot }
              :: (update_beacon true radius robot pos post).1
    ∧ (update_beacon true radius robot pos (pre ++ b :: post)).2
      = (update_beacon true radius robot pos pre).2
          ++ ([BeaconEvent.publish b.id 1, BeaconEvent.write b.id (some robot)]
              ++ (update_beacon true radius robot pos post).2) := by
  have hb := updateBeaconOne_entry radius robot pos b hd
  constructor <;>
    simp [update_beacon, updateBeaconList_append, updateBeaconList, hb]

/-- C2 witness: beacon at the origin occupied by robotB, radius 2, update
for robotA at (1, 0), distance 1 < 2: occupant becomes robotA and ON is
published. -/
theorem C2_witness :
    (update_beacon true 2 "robotA" (1, 0) ([] ++ beaconOccB :: [])).1
      = (update_beacon true 2 "robotA" (1, 0) []).1
          ++ { beaconOccB with occupant := some "robotA" }
              :: (update_beacon true 2 "robotA" (1, 0) []).1
    ∧ (update_beacon true 2 "robotA" (1, 0) ([] ++ beaconOccB :: [])).2
      = (update_beacon true 2 "robotA" (1, 0) []).2
          ++ ([BeaconEvent.publish beaconOccB.id 1,
               BeaconEvent.write beaconOccB.id (some "robotA")]
              ++ (update_beacon true 2 "robotA" (1, 0) []).2) :=
  C2_entry_sets_occupant 2 (by norm_num) "robotA" (1, 0) [] [] beaconOccB
    (by norm_num [distSq, beaconOccB])

/-- C3: when the beacon's occupant is the updating robot and the update is
strictly outside the radius, the occupant is cleared and exactly one OFF
publish is emitted; and when the occupant is not the updating robot, the
beacon's evaluation never publishes OFF, whatever the distance. -/
theorem C3_exit_clears_occupant (radius : ℚ) (hr : 0 ≤ radius)
    (robot : String) (pos : ℚ × ℚ) (pre post : List Beacon) (b : Beacon) :
    (b.occupant = some robot → radius * radius < distSq b.loc pos →
      (update_beacon true radius robot pos (pre ++ b :: post)).1
        = (update_beacon true radius robot pos pre).1
            ++ { b with occupant := none }
                :: (update_beacon true radius robot pos post).1
      ∧ (update_beacon true radius robot pos (pre ++ b :: post)).2
        = (update_beacon true radius robot pos pre).2
            ++ ([BeaconEvent.publish b.id 0, BeaconEvent.write b.id none]
                ++ (update_beacon true radius robot pos post).2))
    ∧ (b.occupant ≠ some robot →
        BeaconEvent.publish b.id 0 ∉ (updateBeaconOne radius robot pos b).2) := by
  constructor
  · intro hocc hd
    have hb := updateBeaconOne_exit radius robot pos b hocc hd
    constructor <;>
      simp [update_beacon, updateBeaconList_append, updateBeaconList, hb]
  · intro hocc
    have h1 : ¬ (b.occupant = some robot ∧ radius * radius < distSq b.loc pos) :=
      fun hc => hocc hc.1
    by_cases h2 : distSq b.loc pos < radius * radius
    · simp [updateBeaconOne, h1, h2]
    · simp [updateBeaconOne, h1, h2]

/-- C3 witness: beacon at the origin occupied by robotA, radius 2, update
for robotA at (5, 0), distance 5 > 2: occupant is cleared and OFF is
published. -/
theorem C3_witness :
    (update_beacon true 2 "robotA" (5, 0) ([] ++ beaconOccA :: [])).1
      = (update_beacon true 2 "robotA" (5, 0) []).1
          ++ { beaconOccA with occupant := none }
              :: (update_beacon true 2 "robotA" (5, 0) []).1
    ∧ (update_beacon true 2 "robotA" (5, 0) ([] ++ beaconOccA :: [])).2
      = (update_beacon true 2 "robotA" (5, 0) []).2
          ++ ([BeaconEvent.publish beaconOccA.id 0,
               BeaconEvent.write beaconOccA.id none]
              ++ (update_beacon true 2 "robotA" (5, 0) []).2) :=
  (C3_exit_clears_occupant 2 (by norm_num) "robotA" (5, 0) [] [] beaconOccA).1
    rfl (by norm_num [distSq, beaconOccA])

/-- C8 counterexample: on the entry transition for a beacon at the origin
with radius 2 and an update at (1, 0), the trace is
`[publish ON, write occupant]`: the very first event is a publish with no
occupant write before it, refuting the claim that the occupant field is
updated before the publish is attempted. -/
theorem C8_counterexample :
    ¬ writesBeforePublishes
        (update_beacon true 2 "robotA" (1, 0)
          [{ id := "b1", loc := (0, 0), occupant := none }]).2 := by
  have htr : (update_beacon true 2 "robotA" (1, 0)
        [{ id := "b1", loc := (0, 0), occupant := none }]).2
      = [BeaconEvent.publish "b1" 1, BeaconEvent.write "b1" (some "robotA")] := by
    norm_num [update_beacon, updateBeaconList, updateBeaconOne, distSq]
  intro h
  rw [htr] at h
  obtain ⟨j, hj, -⟩ := h 0 "b1" 1 rfl
  exact Nat.not_lt_zero j hj

/-- C8 (amended): in every transition performed by `update_beacon`'s loop
body, the publish is attempted first and the occupant field is written
immediately after it: the per-beacon trace is empty, an OFF publish
followed by the clearing write, or an ON publish followed by the
registering write. -/
theorem C8_publish_precedes_write (radius : ℚ) (robot : String)
    (pos : ℚ × ℚ) (b : Beacon) :
    (updateBeaconOne radius robot pos b).2 = []
    ∨ (updateBeaconOne radius robot pos b).2
        = [BeaconEvent.publish b.id 0, BeaconEvent.write b.id none]
    ∨ (updateBeaconOne radius robot pos b).2
        = [BeaconEvent.publish b.id 1, BeaconEvent.write b.id (some robot)] := by
  unfold updateBeaconOne
  by_cases h1 : b.occupant = some robot ∧ radius * radius < distSq b.loc pos
  · have h2 : ¬ distSq b.loc pos < radius * radius :=
      not_lt.mpr (le_of_lt h1.2)
    simp [h1, h2]
  · by_cases h2 : distSq b.loc pos < radius * radius
    · simp [h1, h2]
    · simp [h1, h2]

/-- C4: the spec requires `is_complete` to return false, not raise, when
the fetched data record lacks the last-completed-command field, but the
source reads `data['last_completed_request']` with bracket access: on a
successful response whose data record omits the key, the call raises
`KeyError` instead of returning false. -/
theorem C4_missing_field_raises :
    navigation_completed
        (some { success := some true, data := some statusNoCompleted }) 7
      = Except.error "KeyError: last_completed_request" := rfl

/-- C5 counterexample: the claim that `is_complete` stays true for every
poll after the first matching one fails, because each poll depends only on
its own snapshot: with polls reporting last-completed 42 then 43, the query
for 42 is true at the first poll and false at the second. -/
theorem C5_counterexample :
    ¬ (∀ (polls : List (Option Response)) (cmd : Int) (i j : Nat), i ≤ j →
        (∃ r d, polls[i]? = some (some r) ∧ r.data = some d
          ∧ d.last_completed_request = some cmd) →
        ∀ q, polls[j]? = some q →
          navigation_completed q cmd = Except.ok true) := by
  intro h
  have h1 := h [some (responseCompleted 42), some (responseCompleted 43)]
      42 0 1 (by norm_num)
      ⟨responseCompleted 42, statusCompleted 42, rfl, rfl, rfl⟩
      (some (responseCompleted 43)) rfl
  have h2 : navigation_completed (some (responseCompleted 43)) 42
      = Except.ok false := by
    simp [navigation_completed, responseCompleted, statusCompleted]
  rw [h2] at h1
  simp at h1

/-- C5 (amended): `is_complete` is false whenever no snapshot is available,
and at each poll it is true precisely when that poll's own snapshot carries
a data record whose last-completed-command equals the queried id — the
function keeps no state between polls, so it remains true exactly as long
as subsequent snapshots still report that id. -/
theorem C5_stateless_level_triggered (cmd : Int)
    (polls : List (Option Response)) (j : Nat) (p : Option Response)
    (hp : polls[j]? = some p) :
    navigation_completed none cmd = Except.ok false
    ∧ ((polls.map (fun q => navigation_completed q cmd))[j]?
          = some (Except.ok true)
        ↔ ∃ r d, p = some r ∧ r.data = some d
            ∧ d.last_completed_request = some cmd) := by
  refine ⟨rfl, ?_⟩
  rw [List.getElem?_map, hp]
  have hmap : (Option.map (fun q => navigation_completed q cmd) (some p))
      = some (navigation_completed p cmd) := rfl
  rw [hmap, Option.some_inj]
  exact navigation_completed_ok_true_iff p cmd

/-- C5 witness: a single poll whose snapshot reports 42 as last completed:
the no-snapshot result is false and the poll's result is true for the
query 42. -/
theorem C5_witness :
    navigation_completed none 42 = Except.ok false
    ∧ (([some (responseCompleted 42)].map
          (fun q => navigation_completed q 42))[0]?
        = some (Except.ok true)
      ↔ ∃ r d, some (responseCompleted 42) = some r ∧ r.data = some d
          ∧ d.last_completed_request = some 42) :=
  C5_stateless_level_triggered 42 [some (responseCompleted 42)] 0
    (some (responseCompleted 42)) rfl

/-- C6: with a data record present, `navigation_remaining_duration` returns
`None` when the arrival estimate is absent, returns `None` when the
arrival's command id differs from the query (whatever duration it
carries), and returns a duration only when the arrival's command id equals
the query. -/
theorem C6_duration_requires_matching_cmd (cmd : Int) (r : Response)
    (d : StatusData) (hd : r.data = some d) :
    (d.destination_arrival = none →
        navigation_remaining_duration (some r) cmd = Except.ok none)
    ∧ (∀ a, d.destination_arrival = some a → a.cmd_id ≠ some cmd →
        navigation_remaining_duration (some r) cmd = Except.ok none)
    ∧ (∀ dur, navigation_remaining_duration (some r) cmd
          = Except.ok (some dur) →
        ∃ a, d.destination_arrival = some a ∧ a.cmd_id = some cmd
          ∧ a.duration = some dur) := by
  refine ⟨?_, ?_, ?_⟩
  · intro ha
    simp [navigation_remaining_duration, hd, ha]
  · intro a ha hne
    simp [navigation_remaining_duration, hd, ha, hne]
  · intro dur hres
    cases ha : d.destination_arrival with
    | none => simp [navigation_remaining_duration, hd, ha] at hres
    | some a =>
      by_cases hc : a.cmd_id = some cmd
      · simp [navigation_remaining_duration, hd, ha, hc] at hres
        exact ⟨a, rfl, hc, hres⟩
      · simp [navigation_remaining_duration, hd, ha, hc] at hres

/-- C6 witness: a snapshot whose arrival estimate belongs to command 7 with
5 seconds remaining yields `None` for the query 42. -/
theorem C6_witness :
    navigation_remaining_duration (some responseArrival) 42
      = Except.ok none :=
  (C6_duration_requires_matching_cmd 42 responseArrival statusArrival
      rfl).2.1 arrivalOther rfl (by simp [arrivalOther])

/-- C7: once past the `len(pose) > 2` assertion, `navigate` never
propagates an error: every outcome yields `Except.ok`; a transport or
encoding failure yields false, a body whose success flag is false yields
false, and a body lacking the success flag (its `KeyError` is swallowed by
`except Exception`) yields false. -/
theorem C7_navigate_never_raises (pose : List ℚ) (hp : pose.length > 2) :
    (∀ resp, ∃ b, navigate pose resp = Except.ok b)
    ∧ (∀ msg, navigate pose (NavResponse.transportError msg)
        = Except.ok false)
    ∧ (∀ r, r.success = some false →
        navigate pose (NavResponse.body r) = Except.ok false)
    ∧ (∀ r, r.success = none →
        navigate pose (NavResponse.body r) = Except.ok false) := by
  refine ⟨?_, ?_, ?_, ?_⟩
  · intro resp
    cases resp with
    | transportError msg =>
      exact ⟨false, by simp [navigate, navigateTry, hp]⟩
    | body r =>
      cases hs : r.success with
      | none => exact ⟨false, by simp [navigate, navigateTry, hp, hs]⟩
      | some s => exact ⟨s, by simp [navigate, navigateTry, hp, hs]⟩
  · intro msg
    simp [navigate, navigateTry, hp]
  · intro r hs
    simp [navigate, navigateTry, hp, hs]
  · intro r hs
    simp [navigate, navigateTry, hp, hs]

/-- C7 witness: a responder answering `{success: false}` to a well-formed
pose yields `accepted = false` without raising. -/
theorem C7_witness :
    navigate [1, 2, 0]
        (NavResponse.body { success := some false, data := none })
      = Except.ok false :=
  (C7_navigate_never_raises [1, 2, 0] (by norm_num)).2.2.1
    { success := some false, data := none } rfl

/-- C9: the spec requires `position` to return `None` when the data record
lacks the position field, but the source reads
`response['data']['position']` with bracket access: on a successful
response whose data record omits the key, the call raises `KeyError`
instead of returning `None`. -/
theorem C9_missing_position_raises :
    position true 2 "robot1" []
        (some { success := some true, data := some statusNoPosition })
      = Except.error "KeyError: position" := rfl

/-- C10: `process_completed` delegates verbatim to `navigation_completed`,
so on every response and command id the two return exactly the same
result. -/
theorem C10_process_eq_navigation (response : Option Response)
    (cmd : Int) :
    process_completed response cmd = navigation_completed response cmd :=
  rfl

end RobotAPI
